import Mathlib

/-!
Verification of the knowledge-base-rag retrieval pipeline.

Shallow embedding of `src/rag/rag.py` and
`src/rag/vector_db_providers/qdrant.py`.  The tokenizer (tiktoken), the
OpenAI client and the Qdrant engine are external services; they are
modelled at their interface boundary: token sequences are explicit lists,
embedding/completion calls are function parameters, and the vector store
engine is a list of stored records searched per its documented contract.
-/

namespace KB

/-! ### Python `range` and the chunker (`_chunk_text`) -/

/-- Fuel-based worker for `pyRangeUp`; `fuel ≥ stop - start` steps always
suffice because each iteration advances `start` by `step ≥ 1`. -/
def pyRangeUpAux : Nat → Nat → Nat → Nat → List Nat
  | 0, _, _, _ => []
  | fuel + 1, start, stop, step =>
    if 0 < step ∧ start < stop then
      start :: pyRangeUpAux fuel (start + step) stop step
    else
      []

/-- Python `range(start, stop, step)` for a positive `step` (ascending).
Mirrors CPython: yields `start, start+step, ...` while below `stop`;
empty when `step = 0` (that case is an error at the call site, handled
by the caller `chunk_text`).  Encoded with structural fuel recursion so
the definition computes by kernel reduction. -/
def pyRangeUp (start stop step : Nat) : List Nat :=
  pyRangeUpAux (stop - start) start stop step

/-- `RAGSystem._chunk_text` / `Qdrant._chunk_text` (rag.py lines 48-58,
qdrant.py lines 32-42), at the token level: `tokens` stands for
`self.tokenizer.encode(text)` and each chunk for the token slice
`tokens[i:i + max_tokens]` (the Python code decodes each slice back to
text; decoding is applied by callers).  The Python loop is
`for i in range(0, len(tokens), max_tokens - overlap)`: a negative step
makes `range` empty (so the function silently returns `[]`), and a zero
step makes `range` raise `ValueError`. -/
def chunk_text (tokens : List α) (max_tokens : Nat := 500) (overlap : Nat := 50) :
    Except String (List (List α)) :=
  if max_tokens < overlap then
    .ok []
  else if max_tokens = overlap then
    .error "ValueError: range() arg 3 must not be zero"
  else
    .ok ((pyRangeUp 0 tokens.length (max_tokens - overlap)).map
      (fun i => (tokens.drop i).take max_tokens))

/-! ### Data model -/

/-- `MessageType` (rag.py): a `StrEnum` with `auto()` values, so each
member's string value is its lowercased name. -/
inductive MessageType where
  | query
  | feedback
  | other
deriving DecidableEq, Repr

/-- String value of a `MessageType` member (Python `StrEnum` semantics). -/
def MessageType.toStr : MessageType → String
  | .query => "query"
  | .feedback => "feedback"
  | .other => "other"

/-- A Python JSON value, as produced by `json.loads`. -/
inductive PyJson where
  | null
  | bool (b : Bool)
  | num (n : Int)
  | str (s : String)
  | arr (elems : List PyJson)
  | obj (fields : List (String × PyJson))
deriving Repr

/-- A point stored in the Qdrant collection: the embedding vector plus
the payload written by `Qdrant.index_files` (qdrant.py lines 80-93):
`text`, `tag`, `file_path`, `file_name`, `chunk_index`, `total_chunks`.
Vector components are modelled as integers; the claims under proof do not
depend on the numeric domain of embeddings. -/
structure StoredRecord where
  vector : List Int
  text : String
  tag : String
  file_path : String
  file_name : String
  chunk_index : Nat
  total_chunks : Nat
deriving DecidableEq, Repr

/-- A search hit as assembled by `search_similar` (qdrant.py lines
126-136 / rag.py lines 131-141): the payload fields it copies plus the
similarity score.  (The Python dict does not copy the `tag` field.) -/
structure SearchHit where
  text : String
  file_name : String
  file_path : String
  chunk_index : Nat
  score : Int
deriving DecidableEq, Repr

/-- An operation issued against the vector store. -/
inductive DBOp where
  | search (tagFilter : Option String) (limit : Nat)
  | upsert (points : List StoredRecord)
  | deleteCollection
  | createCollection
deriving DecidableEq, Repr

/-- Effect of a vector-store operation on the stored records: searches
read, upserts append (ids are fresh UUIDs, so no replacement occurs),
`delete_collection` drops everything, `create_collection` makes an empty
collection queryable. -/
def applyDBOp (records : List StoredRecord) : DBOp → List StoredRecord
  | .search _ _ => records
  | .upsert ps => records ++ ps
  | .deleteCollection => []
  | .createCollection => records

/-- An operation on the manifest store (`manifest/manifest.txt`). -/
inductive ManifestOp where
  | read
  | write (text : String)
deriving DecidableEq, Repr

/-- Effect of a manifest-store operation on the stored manifest text. -/
def applyManifestOp (m : Option String) : ManifestOp → Option String
  | .read => m
  | .write t => some t

/-! ### Indexing (`Qdrant.index_files`, per file) -/

/-- The point-construction loop of `Qdrant.index_files` (qdrant.py lines
76-95) for one file: enumerate the chunks, skip a chunk whose text strips
to empty (`if not chunk.strip(): continue`, modelled as all characters
whitespace), and build a point whose payload records the enumeration
index as `chunk_index` and the pre-filter chunk count as `total_chunks`,
with the indexing `tag` attached. -/
def index_file_points (embed : String → List Int) (tag file_path file_name : String)
    (chunks : List String) : List StoredRecord :=
  chunks.enum.filterMap (fun ic =>
    if ic.2.data.all Char.isWhitespace then none
    else some { vector := embed ic.2, text := ic.2, tag := tag, file_path := file_path,
                file_name := file_name, chunk_index := ic.1, total_chunks := chunks.length })

/-- Per-file processing of `Qdrant.index_files` (qdrant.py lines 66-99):
chunk the file content (tokens given by the tokenizer, `decode` standing
for `tokenizer.decode`) and build the points.  An exception while
processing a file (e.g. the chunker's `ValueError`) is caught by the
`except` clause, so such a file contributes no points. -/
def index_file (embed : String → List Int) (decode : List Nat → String)
    (tag file_path file_name : String) (tokens : List Nat)
    (max_tokens : Nat := 500) (overlap : Nat := 50) : List StoredRecord :=
  match chunk_text tokens max_tokens overlap with
  | .error _ => []
  | .ok cs => index_file_points embed tag file_path file_name (cs.map decode)

/-- The upload step of `index_files` (qdrant.py lines 101-106): `if
points:` guards the upsert, so an empty point list issues no store
operation. -/
def index_files_ops (points : List StoredRecord) : List DBOp :=
  if points.isEmpty then [] else [DBOp.upsert points]

/-! ### Search (`Qdrant.search_similar` / `RAGSystem.search_similar`) -/

/-- Modelled from the spec: the Qdrant engine itself is an external
service (out of scope in the spec, interface in spec §4.3/§6).  A search
request with query vector, result limit and optional equality filter on
the payload `tag` keeps the matching records, orders them by similarity
descending (`sim` abstracts the metric) and returns at most `limit` of
them. -/
def engine_search (sim : List Int → List Int → Int) (records : List StoredRecord)
    (queryFilter : Option String) (limit : Nat) (queryVector : List Int) :
    List StoredRecord :=
  ((records.filter (fun r =>
      match queryFilter with
      | some t => r.tag == t
      | none => true)).mergeSort
    (fun a b => decide (sim queryVector b.vector ≤ sim queryVector a.vector))).take limit

/-- The result-dict construction shared by both `search_similar`
implementations: copy `text`, `file_name`, `file_path`, `chunk_index`
from the payload, plus the score. -/
def toHit (sim : List Int → List Int → Int) (queryVector : List Int)
    (r : StoredRecord) : SearchHit :=
  { text := r.text, file_name := r.file_name, file_path := r.file_path,
    chunk_index := r.chunk_index, score := sim queryVector r.vector }

/-- `Qdrant.search_similar` (qdrant.py lines 108-137): always passes a
`query_filter` requiring payload `tag == tag`. -/
def search_similar (sim : List Int → List Int → Int) (records : List StoredRecord)
    (tag : String) (queryVector : List Int) (limit : Nat := 5) : List SearchHit :=
  (engine_search sim records (some tag) limit queryVector).map (toHit sim queryVector)

/-- `RAGSystem.search_similar` (rag.py lines 123-143): same search but
with no `query_filter`, so records of every tag participate. -/
def search_similar_nofilter (sim : List Int → List Int → Int) (records : List StoredRecord)
    (queryVector : List Int) (limit : Nat := 5) : List SearchHit :=
  (engine_search sim records none limit queryVector).map (toHit sim queryVector)

/-! ### Context assembly (`RAGSystem.query_with_rag`, rag.py lines 250-264) -/

/-- The context-building loop: walk the hits in order keeping a running
token total (`enc_len` stands for `len(tokenizer.encode(·))`); at the
first hit whose text would push the total over `max_context_length`,
`break`. -/
def select_hits (enc_len : String → Nat) (max_context_length : Nat) :
    List SearchHit → Nat → List SearchHit
  | [], _ => []
  | h :: rest, total =>
    let t := enc_len h.text
    if max_context_length < total + t then []
    else h :: select_hits enc_len max_context_length rest (total + t)

/-- Each included chunk is labelled with its source file
(`f"From {result['file_name']}:\n{text}"`). -/
def context_pieces (enc_len : String → Nat) (max_context_length : Nat)
    (hits : List SearchHit) : List String :=
  (select_hits enc_len max_context_length hits 0).map
    (fun h => "From " ++ h.file_name ++ ":\n" ++ h.text)

/-- `context = "\n\n".join(context_pieces)`. -/
def build_context (enc_len : String → Nat) (max_context_length : Nat)
    (hits : List SearchHit) : String :=
  String.intercalate "\n\n" (context_pieces enc_len max_context_length hits)

/-! ### Prompts and completion-backed operations -/

/-- `manifest.format(information=context, query=question)` (rag.py line
272): substitutes the two placeholders of the manifest template.  `str.format`
is Python library code; on a manifest whose only brace fields are
`\x7binformation\x7d` and `\x7bquery\x7d` it is this substitution. -/
def rag_prompt (manifest context question : String) : String :=
  (manifest.replace "\x7binformation\x7d" context).replace "\x7bquery\x7d" question

/-- The classification prompt of `RAGSystem.feedback_or_query` (rag.py
lines 149-176), with the `MessageType` members interpolated as in the
f-string. -/
def classifier_prompt (message : String) : String :=
  "\nAnalyze if the following message is a feedback or a query.\n\n# MESSAGE #\n"
    ++ message
    ++ "\n##########\n\nIf the message is a feedback, you should edit it to look like a prompt targeted towards LLMs, and your response should follow the JSON structure below:\n\n\x7b\n\"type\": \""
    ++ MessageType.feedback.toStr
    ++ "\",\n\"response\": \"[message editted as a prompt]\"\n\x7d\n\nIf the message is a query, your response should follow the JSON structure below:\n\x7b\n\"type\": \""
    ++ MessageType.query.toStr
    ++ "\",\n\"response\": \"[message as-is]\"\n\x7d\n\nIf the message is neither a query nor a feedback, your response should follow the JSON structure below:\n\n\x7b\n\"type\": \""
    ++ MessageType.other.toStr
    ++ "\",\n\"response\": \"[message as-is]\"\n\x7d\n\n"

/-- The manifest-rewriting prompt of `RAGSystem.generate_manifest_change`
(rag.py lines 196-226). -/
def manifest_change_prompt (manifest feedback : String) : String :=
  "\nYou are an AI assistant specialized in modifying text documents according to user feedback.\n\nYour task is to modify a document according to user feedback, while maintaining the document\x27s overall structure.\n\nThe document below is a prompt that will be sent to an LLM. \n------\n"
    ++ manifest
    ++ "\n------\nYour response should be in text format, including only the background information that you were provided.\n\n\nThe feedback below should be used to modify the document.\n------\n"
    ++ feedback
    ++ "\n------\n\nModify the document according to the user feedback.\nDo not remove or add any text enclosed by curly braces.\n\nYour response should be simply the modified document.\n        "

/-- `RAGSystem.feedback_or_query` (rag.py lines 145-194).  `complete`
stands for `chat.completions.create` (its failure is an exception:
`.error`); `parse` stands for `json.loads`, returning the parsed value or
an exception.  The completion call is NOT inside the `try` block — only
`json.loads` is — so a completion failure propagates.  When `json.loads`
succeeds, the parsed value is returned as-is (whatever its shape); only a
parse exception triggers the
`{"type": MessageType.OTHER, "response": message}` fallback. -/
def feedback_or_query (complete : String → Except String String)
    (parse : String → Except String PyJson) (message : String) :
    Except String PyJson :=
  match complete (classifier_prompt message) with
  | .error e => .error e
  | .ok content =>
    match parse content with
    | .ok v => .ok v
    | .error _ =>
      .ok (.obj [("type", .str MessageType.other.toStr), ("response", .str message)])

/-- `RAGSystem.generate_manifest_change` (rag.py lines 196-240).
Returns the result together with the manifest-store operations issued and
the prompts sent to the completion model.  A manifest read failure is
re-raised (`.error`); a completion failure is caught and turned into the
string `"Error generating response: {e}"`. -/
def generate_manifest_change (complete : String → Except String String)
    (manifest : Option String) (feedback : String) :
    Except String String × List ManifestOp × List String :=
  match manifest with
  | none => (.error "FileNotFoundError: manifest.txt", [.read], [])
  | some m =>
    let prompt := manifest_change_prompt m feedback
    match complete prompt with
    | .ok text => (.ok text, [.read], [prompt])
    | .error e => (.ok ("Error generating response: " ++ e), [.read], [prompt])

/-- Result of one `query_with_rag` turn: the returned string (or the
exception it raises), the vector-store operations, the manifest-store
operations, and the prompts sent to the completion model. -/
structure TurnResult where
  answer : Except String String
  dbOps : List DBOp
  manifestOps : List ManifestOp
  completionPrompts : List String
deriving Repr

/-- `RAGSystem.query_with_rag` (rag.py lines 243-292): search (limit 10),
short-circuit on zero hits with the fixed no-information message, build
the token-budgeted context, read the manifest (read failure re-raised),
interpolate it and issue one completion call whose failure is caught and
returned as `"Error generating response: {e}"`.

`tagFilter` models the tag-scoped orchestrator variant
(`QueryController.query_with_rag(selected_category, message)` in
tests/test_rag.py, whose class body is not in src/): the spec scopes the
search by the selected category tag; `none` gives exactly
`RAGSystem.query_with_rag`, whose search is unfiltered. -/
def query_with_rag (sim : List Int → List Int → Int) (embed : String → List Int)
    (complete : String → Except String String) (enc_len : String → Nat)
    (records : List StoredRecord) (manifest : Option String)
    (tagFilter : Option String) (question : String)
    (max_context_length : Nat := 3000) : TurnResult :=
  if ((engine_search sim records tagFilter 10 (embed question)).map
      (toHit sim (embed question))).isEmpty then
    { answer := .ok "I couldn\x27t find any relevant information to answer your question.",
      dbOps := [DBOp.search tagFilter 10], manifestOps := [], completionPrompts := [] }
  else
    match manifest with
    | none =>
      { answer := .error "FileNotFoundError: manifest.txt",
        dbOps := [DBOp.search tagFilter 10], manifestOps := [.read],
        completionPrompts := [] }
    | some m =>
      match complete (rag_prompt m (build_context enc_len max_context_length
          ((engine_search sim records tagFilter 10 (embed question)).map
            (toHit sim (embed question)))) question) with
      | .ok text =>
        { answer := .ok text, dbOps := [DBOp.search tagFilter 10],
          manifestOps := [.read],
          completionPrompts := [rag_prompt m (build_context enc_len max_context_length
            ((engine_search sim records tagFilter 10 (embed question)).map
              (toHit sim (embed question)))) question] }
      | .error e =>
        { answer := .ok ("Error generating response: " ++ e),
          dbOps := [DBOp.search tagFilter 10], manifestOps := [.read],
          completionPrompts := [rag_prompt m (build_context enc_len max_context_length
            ((engine_search sim records tagFilter 10 (embed question)).map
              (toHit sim (embed question)))) question] }

/-! ### Lemmas about `pyRangeUp` -/

theorem pyRangeUpAux_congr {step : Nat} :
    ∀ (f1 f2 start stop : Nat), stop - start ≤ f1 → stop - start ≤ f2 →
      pyRangeUpAux f1 start stop step = pyRangeUpAux f2 start stop step := by
  intro f1
  induction f1 with
  | zero =>
    intro f2 start stop h1 h2
    match f2 with
    | 0 => rfl
    | f2 + 1 =>
      rw [pyRangeUpAux, pyRangeUpAux, if_neg]
      omega
  | succ f1 ih =>
    intro f2 start stop h1 h2
    match f2 with
    | 0 =>
      rw [pyRangeUpAux, pyRangeUpAux, if_neg]
      omega
    | f2 + 1 =>
      rw [pyRangeUpAux, pyRangeUpAux]
      by_cases hc : 0 < step ∧ start < stop
      · rw [if_pos hc, if_pos hc, ih f2 (start + step) stop (by omega) (by omega)]
      · rw [if_neg hc, if_neg hc]

theorem pyRangeUp_eq_nil {start stop step : Nat} (h : stop ≤ start ∨ step = 0) :
    pyRangeUp start stop step = [] := by
  rw [pyRangeUp]
  match hf : stop - start with
  | 0 => rfl
  | f + 1 =>
    rw [pyRangeUpAux, if_neg]
    omega

theorem pyRangeUp_eq_cons {start stop step : Nat} (hstep : 0 < step) (hlt : start < stop) :
    pyRangeUp start stop step = start :: pyRangeUp (start + step) stop step := by
  rw [pyRangeUp, pyRangeUp]
  match hf : stop - start with
  | 0 => omega
  | f + 1 =>
    rw [pyRangeUpAux, if_pos (And.intro hstep hlt)]
    rw [pyRangeUpAux_congr f (stop - (start + step)) (start + step) stop (by omega) (by omega)]

theorem pyRangeUp_length {step : Nat} (hstep : 0 < step) (start stop : Nat) :
    (pyRangeUp start stop step).length = (stop - start + step - 1) / step := by
  have H : ∀ (d start : Nat), stop - start ≤ d →
      (pyRangeUp start stop step).length = (stop - start + step - 1) / step := by
    intro d
    induction d with
    | zero =>
      intro start h0
      rw [pyRangeUp_eq_nil (Or.inl (by omega))]
      have e : stop - start = 0 := by omega
      rw [List.length_nil, e, Nat.div_eq_of_lt (by omega)]
    | succ d ih =>
      intro start hle
      by_cases hlt : start < stop
      · rw [pyRangeUp_eq_cons hstep hlt, List.length_cons]
        rw [ih (start + step) (by omega)]
        rcases Nat.lt_or_ge stop (start + step) with hcase | hcase
        · have e1 : stop - (start + step) = 0 := by omega
          have e2 : (stop - start + step - 1) / step = 1 :=
            Nat.div_eq_of_lt_le (by omega) (by omega)
          rw [e1, e2, Nat.zero_add, Nat.div_eq_of_lt (by omega)]
        · have e1 : stop - start + step - 1 = (stop - (start + step) + step - 1) + step := by
            omega
          rw [e1, Nat.add_div_right _ hstep]
      · rw [pyRangeUp_eq_nil (Or.inl (by omega))]
        have e : stop - start = 0 := by omega
        rw [List.length_nil, e, Nat.div_eq_of_lt (by omega)]
  exact H stop start (by omega)

theorem pyRangeUp_getElem? {step : Nat} (hstep : 0 < step) (start stop : Nat) :
    ∀ (k : Nat), k < (pyRangeUp start stop step).length →
      (pyRangeUp start stop step)[k]? = some (start + k * step) := by
  have H : ∀ (d start : Nat), stop - start ≤ d → ∀ (k : Nat),
      k < (pyRangeUp start stop step).length →
      (pyRangeUp start stop step)[k]? = some (start + k * step) := by
    intro d
    induction d with
    | zero =>
      intro start h0 k hk
      rw [pyRangeUp_eq_nil (Or.inl (by omega))] at hk
      simp at hk
    | succ d ih =>
      intro start hle k hk
      by_cases hlt : start < stop
      · rw [pyRangeUp_eq_cons hstep hlt] at hk ⊢
        match k with
        | 0 => simp
        | k + 1 =>
          simp only [List.getElem?_cons_succ]
          rw [ih (start + step) (by omega) k (by simpa using hk)]
          congr 1
          ring
      · rw [pyRangeUp_eq_nil (Or.inl (by omega))] at hk
        simp at hk
  exact H stop start (by omega)

theorem pyRangeUp_getElem {step : Nat} (hstep : 0 < step) (start stop : Nat)
    (k : Nat) (hk : k < (pyRangeUp start stop step).length) :
    (pyRangeUp start stop step)[k] = start + k * step := by
  rw [List.getElem_eq_iff]
  exact pyRangeUp_getElem? hstep start stop k hk

/-- Reconstruction auxiliary: the windows dropped by `o` tokens, taken
over the tail of the start indices, concatenate to a suffix of the token
stream. -/
theorem pyRangeUp_join_drop (tokens : List α) (o s : Nat) (hs : 0 < s) (start : Nat) :
    ((pyRangeUp start tokens.length s).map
      (fun i => ((tokens.drop (i + o)).take s))).flatten = tokens.drop (start + o) := by
  have H : ∀ (d start : Nat), tokens.length - start ≤ d →
      ((pyRangeUp start tokens.length s).map
        (fun i => ((tokens.drop (i + o)).take s))).flatten = tokens.drop (start + o) := by
    intro d
    induction d with
    | zero =>
      intro start h0
      rw [pyRangeUp_eq_nil (Or.inl (by omega))]
      simp only [List.map_nil, List.flatten_nil]
      rw [eq_comm, List.drop_eq_nil_iff]
      omega
    | succ d ih =>
      intro start hle
      by_cases hlt : start < tokens.length
      · rw [pyRangeUp_eq_cons hs hlt]
        simp only [List.map_cons, List.flatten_cons]
        rw [ih (start + s) (by omega)]
        have e2 : tokens.drop (start + s + o) = (tokens.drop (start + o)).drop s := by
          rw [List.drop_drop]
          congr 1
          omega
        rw [e2]
        exact List.take_append_drop s (tokens.drop (start + o))
      · rw [pyRangeUp_eq_nil (Or.inl (by omega))]
        simp only [List.map_nil, List.flatten_nil]
        rw [eq_comm, List.drop_eq_nil_iff]
        omega
  exact H tokens.length start (by omega)

theorem take_then_drop (m : List α) (o w : Nat) (h : o ≤ w) :
    (m.take w).drop o = (m.drop o).take (w - o) := by
  have e : o + (w - o) = w := by omega
  calc (m.take w).drop o = (m.take (o + (w - o))).drop o := by rw [e]
    _ = (m.drop o).take (w - o) := (List.take_drop o (w - o) m).symm

/-- C1: for `overlap < max_tokens` the chunker succeeds; chunk `k` is the
token window `tokens[k*stride : k*stride + max_tokens]` where
`stride = max_tokens - overlap`; the first chunk followed by every later
chunk with its first `overlap` tokens removed concatenates back to the
whole token sequence; and the chunk count is exactly
`ceil(len(tokens) / stride)` (hence within ±1 of it). -/
theorem chunk_text_windows_roundtrip_count (tokens : List α) (max_tokens overlap : Nat)
    (h : overlap < max_tokens) :
    ∃ chunks, chunk_text tokens max_tokens overlap = .ok chunks ∧
      (∀ (k : Nat) (hk : k < chunks.length),
        chunks[k] = (tokens.drop (k * (max_tokens - overlap))).take max_tokens) ∧
      (chunks = [] → tokens = []) ∧
      (∀ c rest, chunks = c :: rest →
        c ++ (rest.map (fun cc => cc.drop overlap)).flatten = tokens) ∧
      chunks.length =
        (tokens.length + (max_tokens - overlap) - 1) / (max_tokens - overlap) := by
  set s := max_tokens - overlap with hs_def
  have hs : 0 < s := by omega
  have hne : ¬ max_tokens < overlap := by omega
  have hne2 : ¬ max_tokens = overlap := by omega
  refine ⟨(pyRangeUp 0 tokens.length s).map (fun i => (tokens.drop i).take max_tokens),
    ?_, ?_, ?_, ?_, ?_⟩
  · rw [chunk_text, if_neg hne, if_neg hne2]
  · intro k hk
    rw [List.getElem_map]
    congr 1
    have hk' : k < (pyRangeUp 0 tokens.length s).length := by
      simpa using hk
    rw [pyRangeUp_getElem hs 0 tokens.length k hk', Nat.zero_add]
  · intro hnil
    rcases Nat.eq_zero_or_pos tokens.length with hzero | hpos
    · exact List.eq_nil_of_length_eq_zero hzero
    · rw [pyRangeUp_eq_cons hs hpos, List.map_cons] at hnil
      exact absurd hnil (List.cons_ne_nil _ _)
  · intro c rest hcons
    rcases Nat.eq_zero_or_pos tokens.length with hzero | hpos
    · rw [pyRangeUp_eq_nil (Or.inl (by omega)), List.map_nil] at hcons
      exact absurd hcons.symm (List.cons_ne_nil _ _)
    · rw [pyRangeUp_eq_cons hs hpos, List.map_cons] at hcons
      rw [List.cons_eq_cons] at hcons
      obtain ⟨hc, hrest⟩ := hcons
      rw [← hc, ← hrest]
      simp only [Nat.zero_add]
      have hmap : ((pyRangeUp s tokens.length s).map
            (fun i => (tokens.drop i).take max_tokens)).map (fun cc => cc.drop overlap) =
          (pyRangeUp s tokens.length s).map
            (fun i => ((tokens.drop (i + overlap)).take (max_tokens - overlap))) := by
        rw [List.map_map]
        refine List.map_congr_left ?_
        intro i _
        simp only [Function.comp]
        rw [take_then_drop _ _ _ (Nat.le_of_lt h), List.drop_drop]
      rw [hmap]
      have hflat := pyRangeUp_join_drop tokens overlap s hs s
      rw [hs_def] at hflat
      rw [hflat]
      have e : max_tokens - overlap + overlap = max_tokens := by omega
      rw [e, List.drop_zero]
      exact List.take_append_drop max_tokens tokens
  · rw [List.length_map, pyRangeUp_length hs, Nat.sub_zero]

/-- C1 witness: concrete instance, tokens `[0..6]`, `max_tokens = 5`,
`overlap = 3`. -/
theorem chunk_text_windows_roundtrip_count_witness :
    3 < 5 ∧ (∃ chunks, chunk_text ([0,1,2,3,4,5,6] : List Nat) 5 3 = .ok chunks ∧
      (∀ (k : Nat) (hk : k < chunks.length),
        chunks[k] = (([0,1,2,3,4,5,6] : List Nat).drop (k * (5 - 3))).take 5) ∧
      (chunks = [] → ([0,1,2,3,4,5,6] : List Nat) = []) ∧
      (∀ c rest, chunks = c :: rest →
        c ++ (rest.map (fun cc => cc.drop 3)).flatten = [0,1,2,3,4,5,6]) ∧
      chunks.length = (([0,1,2,3,4,5,6] : List Nat).length + (5 - 3) - 1) / (5 - 3)) :=
  ⟨by decide, chunk_text_windows_roundtrip_count [0,1,2,3,4,5,6] 5 3 (by decide)⟩

/-- C2 counterexample: with `overlap = 3 > max_tokens = 2` on a nonempty
token stream, the chunker does not reject the call — the Python `range`
step is negative, the loop body never runs, and the function silently
returns an empty chunk list. -/
theorem chunk_text_overlap_gt_not_rejected :
    chunk_text ([0, 1, 2] : List Nat) 2 3 = .ok [] := by rfl

/-- C2 (amended): with `overlap > max_tokens` the chunker silently
returns an empty chunk list (no configuration error); only the boundary
case `overlap = max_tokens` fails, with the `ValueError` that `range`
itself raises on a zero step.  In neither case does the loop run, so it
never loops. -/
theorem chunk_text_overlap_ge_behaviour (tokens : List α) (max_tokens overlap : Nat)
    (h : max_tokens ≤ overlap) :
    chunk_text tokens max_tokens overlap =
      if max_tokens < overlap then .ok []
      else .error "ValueError: range() arg 3 must not be zero" := by
  by_cases hlt : max_tokens < overlap
  · rw [chunk_text, if_pos hlt, if_pos hlt]
  · have he : max_tokens = overlap := by omega
    rw [chunk_text, if_neg hlt, if_pos he, if_neg hlt]

/-- C2 witness: the boundary case `overlap = max_tokens = 2`. -/
theorem chunk_text_overlap_ge_behaviour_witness :
    (2 : Nat) ≤ 2 ∧ chunk_text ([0, 1] : List Nat) 2 2 =
      (if (2 : Nat) < 2 then .ok []
       else .error "ValueError: range() arg 3 must not be zero") :=
  ⟨by decide, chunk_text_overlap_ge_behaviour [0, 1] 2 2 (by decide)⟩

/-- C10: on an empty tokenization the chunker returns an empty chunk
list (the `range` is empty), per-file indexing builds no points, and the
`if points:` guard issues no upsert; no step errors. -/
theorem chunk_text_empty_input_no_upsert (embed : String → List Int)
    (decode : List Nat → String) (tag file_path file_name : String)
    (max_tokens overlap : Nat) (h : overlap < max_tokens) :
    chunk_text ([] : List Nat) max_tokens overlap = .ok [] ∧
    index_file embed decode tag file_path file_name [] max_tokens overlap = [] ∧
    index_files_ops (index_file embed decode tag file_path file_name [] max_tokens overlap) =
      [] := by
  have h1 : chunk_text ([] : List Nat) max_tokens overlap = .ok [] := by
    rw [chunk_text, if_neg (by omega), if_neg (by omega)]
    rw [show ([] : List Nat).length = 0 from rfl, pyRangeUp_eq_nil (Or.inl (by omega))]
    rfl
  have h2 : index_file embed decode tag file_path file_name [] max_tokens overlap = [] := by
    unfold index_file
    rw [h1]
    rfl
  refine ⟨h1, h2, ?_⟩
  rw [h2]
  rfl

/-- C10 witness: the default chunking parameters `(500, 50)` used at the
indexing call site. -/
theorem chunk_text_empty_input_no_upsert_witness :
    50 < 500 ∧ (chunk_text ([] : List Nat) 500 50 = .ok [] ∧
      index_file (fun _ => ([] : List Int)) (fun _ => "") "categoryA" "a.txt" "a.txt" []
        500 50 = [] ∧
      index_files_ops (index_file (fun _ => ([] : List Int)) (fun _ => "") "categoryA"
        "a.txt" "a.txt" [] 500 50) = []) :=
  ⟨by decide, chunk_text_empty_input_no_upsert (fun _ => ([] : List Int)) (fun _ => "")
    "categoryA" "a.txt" "a.txt" 500 50 (by decide)⟩

/-- Budget invariant of the context loop: starting from a running total
within budget, the totals stay within budget. -/
theorem select_hits_sum_le (enc_len : String → Nat) (budget : Nat) :
    ∀ (hits : List SearchHit) (total : Nat), total ≤ budget →
      total + ((select_hits enc_len budget hits total).map
        (fun h => enc_len h.text)).sum ≤ budget := by
  intro hits
  induction hits with
  | nil =>
    intro total htot
    simp only [select_hits, List.map_nil, List.sum_nil]
    omega
  | cons h rest ih =>
    intro total htot
    simp only [select_hits]
    by_cases hb : budget < total + enc_len h.text
    · rw [if_pos hb]
      simp only [List.map_nil, List.sum_nil]
      omega
    · rw [if_neg hb]
      simp only [List.map_cons, List.sum_cons]
      have := ih (total + enc_len h.text) (by omega)
      omega

/-- Prefix/stop structure of the context loop: the selection is a prefix
of the hit list, and it is cut exactly at the first hit that would push
the running total over the budget. -/
theorem select_hits_stops_at_overflow (enc_len : String → Nat) (budget : Nat) :
    ∀ (hits : List SearchHit) (total : Nat),
      ∃ k, select_hits enc_len budget hits total = hits.take k ∧ k ≤ hits.length ∧
        (k = hits.length ∨ ∃ h rest, hits.drop k = h :: rest ∧
          budget < total + ((hits.take k).map (fun x => enc_len x.text)).sum
            + enc_len h.text) := by
  intro hits
  induction hits with
  | nil =>
    intro total
    exact ⟨0, by simp [select_hits], by simp, Or.inl rfl⟩
  | cons h rest ih =>
    intro total
    simp only [select_hits]
    by_cases hb : budget < total + enc_len h.text
    · refine ⟨0, by rw [if_pos hb, List.take_zero], by simp, Or.inr ⟨h, rest, rfl, ?_⟩⟩
      simp only [List.take_zero, List.map_nil, List.sum_nil]
      omega
    · obtain ⟨k, hsel, hk, hstop⟩ := ih (total + enc_len h.text)
      refine ⟨k + 1, by rw [if_neg hb, hsel, List.take_succ_cons], by simp; omega, ?_⟩
      rcases hstop with heq | ⟨h2, rest2, hdrop, hover⟩
      · exact Or.inl (by simp [heq])
      · refine Or.inr ⟨h2, rest2, by simpa using hdrop, ?_⟩
        simp only [List.take_succ_cons, List.map_cons, List.sum_cons]
        omega

/-- C3 counterexample: the budget does NOT bound the token count of the
assembled context string.  With a per-character tokenizer
(`enc_len = String.length`), a budget of 10 and two 5-token hits, the
running total the code accounts is exactly 10 — so both hits are
included — yet the assembled context string, which additionally carries
the uncounted `From file:` labels and blank-line separators, has 36
tokens, exceeding the budget. -/
theorem assembled_context_exceeds_budget :
    ((select_hits String.length 10
        [⟨"aaaaa", "f.txt", "p", 0, 0⟩, ⟨"bbbbb", "f.txt", "p", 1, 0⟩] 0).map
      (fun h => String.length h.text)).sum = 10 ∧
    10 < String.length (build_context String.length 10
      [⟨"aaaaa", "f.txt", "p", 0, 0⟩, ⟨"bbbbb", "f.txt", "p", 1, 0⟩]) := by
  exact ⟨by decide, by decide⟩

/-- C3 (amended): the context loop of `query_with_rag` takes hits in the
given order; the included chunk texts form a prefix of the hit list that
is cut at the first hit whose token count would push the running total
over `max_context_length` (so no partial chunk and no later, smaller
chunk is included), and the budget bounds the token total the code
accounts — the sum of the included chunk texts' token counts; the
assembled context string additionally carries the `From file:` labels and
blank-line separators, whose tokens the code never counts. -/
theorem query_context_budget_and_order (enc_len : String → Nat)
    (max_context_length : Nat) (hits : List SearchHit) :
    ((select_hits enc_len max_context_length hits 0).map
      (fun h => enc_len h.text)).sum ≤ max_context_length ∧
    (∃ k, select_hits enc_len max_context_length hits 0 = hits.take k ∧
      k ≤ hits.length ∧
      (k = hits.length ∨ ∃ h rest, hits.drop k = h :: rest ∧
        max_context_length < ((hits.take k).map (fun x => enc_len x.text)).sum
          + enc_len h.text)) ∧
    context_pieces enc_len max_context_length hits =
      (select_hits enc_len max_context_length hits 0).map
        (fun h => "From " ++ h.file_name ++ ":\n" ++ h.text) := by
  refine ⟨?_, ?_, rfl⟩
  · have := select_hits_sum_le enc_len max_context_length hits 0 (by omega)
    omega
  · obtain ⟨k, hsel, hk, hstop⟩ := select_hits_stops_at_overflow enc_len max_context_length hits 0
    refine ⟨k, hsel, hk, ?_⟩
    rcases hstop with heq | ⟨h, rest, hdrop, hover⟩
    · exact Or.inl heq
    · exact Or.inr ⟨h, rest, hdrop, by omega⟩

/-- The comparison used by the engine model is transitive and total, so
`mergeSort` yields a similarity-descending order. -/
theorem engine_search_pairwise (sim : List Int → List Int → Int)
    (records : List StoredRecord) (queryFilter : Option String) (limit : Nat)
    (queryVector : List Int) :
    (engine_search sim records queryFilter limit queryVector).Pairwise
      (fun a b => sim queryVector b.vector ≤ sim queryVector a.vector) := by
  unfold engine_search
  have hsorted := @List.sorted_mergeSort StoredRecord
    (fun a b : StoredRecord =>
      decide (sim queryVector b.vector ≤ sim queryVector a.vector))
    (fun a b c hab hbc => by
      simp only [decide_eq_true_eq] at hab hbc ⊢
      omega)
    (fun a b => by
      simp only [Bool.or_eq_true, decide_eq_true_eq]
      omega)
    (records.filter (fun r =>
      match queryFilter with
      | some t => r.tag == t
      | none => true))
  have htake := hsorted.sublist (List.take_sublist limit _)
  exact htake.imp (fun hab => by simpa using hab)

/-- C4: `Qdrant.search_similar` always sends an equality filter on the
payload tag, so every record the engine selects carries exactly that tag;
at most `limit` hits come back and they are ordered by similarity
descending.  `RAGSystem.search_similar` sends no filter, and (concrete
instance) returns hits of two different tags from a mixed index. -/
theorem search_similar_tag_scoped (sim : List Int → List Int → Int)
    (records : List StoredRecord) (tag : String) (queryVector : List Int) (limit : Nat) :
    (∀ r ∈ engine_search sim records (some tag) limit queryVector, r.tag = tag) ∧
    (search_similar sim records tag queryVector limit).length ≤ limit ∧
    (search_similar sim records tag queryVector limit).Pairwise
      (fun a b => b.score ≤ a.score) ∧
    (∃ (r1 r2 : StoredRecord), r1.tag = "A" ∧ r2.tag = "B" ∧
      engine_search (fun q v => (List.zipWith (· * ·) q v).sum) [r1, r2] none 5 [1] =
        [r1, r2]) := by
  refine ⟨?_, ?_, ?_, ?_⟩
  · intro r hr
    unfold engine_search at hr
    have h2 := List.mem_of_mem_take hr
    rw [List.mem_mergeSort, List.mem_filter] at h2
    have h3 := h2.2
    simp only [beq_iff_eq] at h3
    exact h3
  · unfold search_similar
    rw [List.length_map]
    unfold engine_search
    exact List.length_take_le _ _
  · unfold search_similar
    rw [List.pairwise_map]
    exact (engine_search_pairwise sim records (some tag) limit queryVector).imp
      (fun hab => hab)
  · refine ⟨⟨[1], "a", "A", "pa", "a.txt", 0, 1⟩, ⟨[1], "b", "B", "pb", "b.txt", 0, 1⟩,
      rfl, rfl, ?_⟩
    unfold engine_search
    rw [show List.filter
          (fun r : StoredRecord => match (none : Option String) with
            | some t => r.tag == t
            | none => true)
          [⟨[1], "a", "A", "pa", "a.txt", 0, 1⟩, ⟨[1], "b", "B", "pb", "b.txt", 0, 1⟩] =
          [⟨[1], "a", "A", "pa", "a.txt", 0, 1⟩, ⟨[1], "b", "B", "pb", "b.txt", 0, 1⟩]
        from rfl]
    rw [List.mergeSort_of_sorted (by decide)]
    rfl

/-- C5: when the search inside `query_with_rag` returns zero hits, the
turn short-circuits: the answer is the fixed no-information message, no
completion call is issued, and the manifest is not even read. -/
theorem query_with_rag_no_hits_short_circuit (sim : List Int → List Int → Int)
    (embed : String → List Int) (complete : String → Except String String)
    (enc_len : String → Nat) (records : List StoredRecord) (manifest : Option String)
    (tagFilter : Option String) (question : String) (max_context_length : Nat)
    (h : engine_search sim records tagFilter 10 (embed question) = []) :
    query_with_rag sim embed complete enc_len records manifest tagFilter question
        max_context_length =
      { answer := .ok "I couldn\x27t find any relevant information to answer your question.",
        dbOps := [DBOp.search tagFilter 10], manifestOps := [],
        completionPrompts := [] } := by
  unfold query_with_rag
  rw [h]
  rfl

/-- C5 witness: spec scenario 2 — only `categoryB` content indexed, the
query scoped to `categoryA`; search is empty and the fixed message comes
back with no completion prompt issued. -/
theorem query_with_rag_no_hits_short_circuit_witness :
    query_with_rag (fun _ _ => 0) (fun _ => []) (fun _ => .ok "never")
        (fun _ => 0) [⟨[1], "b", "categoryB", "pb", "b.txt", 0, 1⟩] (some "manifest")
        (some "categoryA") "q" 3000 =
      { answer := .ok "I couldn\x27t find any relevant information to answer your question.",
        dbOps := [DBOp.search (some "categoryA") 10], manifestOps := [],
        completionPrompts := [] } :=
  query_with_rag_no_hits_short_circuit (fun _ _ => 0) (fun _ => []) (fun _ => .ok "never")
    (fun _ => 0) [⟨[1], "b", "categoryB", "pb", "b.txt", 0, 1⟩] (some "manifest")
    (some "categoryA") "q" 3000 (by simp [engine_search])

/-- C6 counterexample: the string `"\x7b\x7d"` is valid JSON (the empty
object — `json.loads` succeeds on it) yet is not the expected
`\x7btype, response\x7d` structure; `feedback_or_query` returns the
parsed empty object as-is instead of the OTHER fallback. -/
theorem feedback_or_query_wrong_shape_passthrough :
    feedback_or_query (fun _ => .ok "\x7b\x7d") (fun _ => .ok (PyJson.obj [])) "hello" =
      .ok (PyJson.obj []) ∧
    PyJson.obj [] ≠
      PyJson.obj [("type", .str MessageType.other.toStr), ("response", .str "hello")] := by
  refine ⟨rfl, ?_⟩
  simp

/-- C6 (amended): the fallback fires exactly when `json.loads` raises:
an output that is not valid JSON yields
`\x7b"type": OTHER, "response": original message\x7d` without raising,
while an output that parses as JSON is returned as the parsed value even
when it lacks the expected structure. -/
theorem feedback_or_query_parse_behaviour (complete : String → Except String String)
    (parse : String → Except String PyJson) (message content : String)
    (hok : complete (classifier_prompt message) = .ok content) :
    (∀ err, parse content = .error err →
      feedback_or_query complete parse message =
        .ok (.obj [("type", .str MessageType.other.toStr),
                   ("response", .str message)])) ∧
    (∀ v, parse content = .ok v → feedback_or_query complete parse message = .ok v) := by
  constructor <;> intro x hx <;> simp only [feedback_or_query, hok, hx]

/-- C6 witness: a malformed (non-JSON) model output triggers the OTHER
fallback with the original message. -/
theorem feedback_or_query_parse_behaviour_witness :
    feedback_or_query (fun _ => .ok "not json") (fun _ => .error "JSONDecodeError") "hi" =
      .ok (.obj [("type", .str MessageType.other.toStr), ("response", .str "hi")]) :=
  (feedback_or_query_parse_behaviour (fun _ => .ok "not json")
    (fun _ => .error "JSONDecodeError") "hi" "not json" rfl).1 "JSONDecodeError" rfl

/-- C8 counterexample: in `feedback_or_query` the completion call sits
outside the `try` block, so a completion failure while classifying the
message propagates as an exception instead of producing a diagnostic
response string. -/
theorem feedback_or_query_completion_failure_raises :
    feedback_or_query (fun _ => .error "APIError") (fun _ => .ok PyJson.null) "hi" =
      .error "APIError" := rfl

/-- C8 (amended): a completion failure while answering a query
(`query_with_rag`) or while rewriting the manifest
(`generate_manifest_change`) is caught and returned as the diagnostic
string `"Error generating response: e"`; but a completion failure while
classifying the message (`feedback_or_query`) propagates out. -/
theorem completion_failure_handling (sim : List Int → List Int → Int)
    (embed : String → List Int) (enc_len : String → Nat)
    (records : List StoredRecord) (m feedback question message : String)
    (tagFilter : Option String) (max_context_length : Nat) (e : String)
    (parse : String → Except String PyJson)
    (hsr : engine_search sim records tagFilter 10 (embed question) ≠ []) :
    (query_with_rag sim embed (fun _ => .error e) enc_len records (some m) tagFilter
        question max_context_length).answer =
      .ok ("Error generating response: " ++ e) ∧
    (generate_manifest_change (fun _ => .error e) (some m) feedback).1 =
      .ok ("Error generating response: " ++ e) ∧
    feedback_or_query (fun _ => .error e) parse message = .error e := by
  refine ⟨?_, rfl, rfl⟩
  rcases hengine : engine_search sim records tagFilter 10 (embed question) with _ | ⟨r, rs⟩
  · exact absurd hengine hsr
  · unfold query_with_rag
    rw [hengine]
    rfl

/-- C8 witness: a single indexed record, a failing completion model. -/
theorem completion_failure_handling_witness :
    (query_with_rag (fun _ _ => 0) (fun _ => []) (fun _ => .error "APIError")
        (fun _ => 0) [⟨[1], "t", "A", "p", "f.txt", 0, 1⟩] (some "m") none "q"
        3000).answer =
      .ok ("Error generating response: " ++ "APIError") ∧
    (generate_manifest_change (fun _ => .error "APIError") (some "m") "fb").1 =
      .ok ("Error generating response: " ++ "APIError") ∧
    feedback_or_query (fun _ => .error "APIError") (fun _ => .ok PyJson.null) "msg" =
      .error "APIError" :=
  completion_failure_handling (fun _ _ => 0) (fun _ => []) (fun _ => 0)
    [⟨[1], "t", "A", "p", "f.txt", 0, 1⟩] "m" "fb" "q" "msg" none 3000 "APIError"
    (fun _ => .ok PyJson.null) (by simp [engine_search])

/-- Every branch of `query_with_rag` issues exactly one search against
the vector store and at most one manifest read. -/
theorem query_with_rag_ops (sim : List Int → List Int → Int)
    (embed : String → List Int) (complete : String → Except String String)
    (enc_len : String → Nat) (records : List StoredRecord) (manifest : Option String)
    (tagFilter : Option String) (question : String) (max_context_length : Nat) :
    (query_with_rag sim embed complete enc_len records manifest tagFilter question
        max_context_length).dbOps = [DBOp.search tagFilter 10] ∧
    ((query_with_rag sim embed complete enc_len records manifest tagFilter question
        max_context_length).manifestOps = [] ∨
     (query_with_rag sim embed complete enc_len records manifest tagFilter question
        max_context_length).manifestOps = [ManifestOp.read]) := by
  unfold query_with_rag
  split
  · exact ⟨rfl, Or.inl rfl⟩
  · split
    · exact ⟨rfl, Or.inr rfl⟩
    · split
      · exact ⟨rfl, Or.inr rfl⟩
      · exact ⟨rfl, Or.inr rfl⟩

/-- C9: a query turn is read-only with respect to stored state — every
vector-store operation it issues is a search, replaying its store
operations leaves the indexed records unchanged, and its manifest-store
operations contain no write, leaving the manifest text unchanged. -/
theorem query_with_rag_read_only (sim : List Int → List Int → Int)
    (embed : String → List Int) (complete : String → Except String String)
    (enc_len : String → Nat) (records : List StoredRecord) (manifest : Option String)
    (tagFilter : Option String) (question : String) (max_context_length : Nat) :
    (∀ op ∈ (query_with_rag sim embed complete enc_len records manifest tagFilter
        question max_context_length).dbOps, ∃ f l, op = DBOp.search f l) ∧
    ((query_with_rag sim embed complete enc_len records manifest tagFilter question
        max_context_length).dbOps.foldl applyDBOp records = records) ∧
    (∀ mop ∈ (query_with_rag sim embed complete enc_len records manifest tagFilter
        question max_context_length).manifestOps, mop = ManifestOp.read) ∧
    ((query_with_rag sim embed complete enc_len records manifest tagFilter question
        max_context_length).manifestOps.foldl applyManifestOp manifest = manifest) := by
  obtain ⟨hdb, hman⟩ := query_with_rag_ops sim embed complete enc_len records manifest
    tagFilter question max_context_length
  refine ⟨?_, ?_, ?_, ?_⟩
  · intro op hop
    rw [hdb] at hop
    exact ⟨tagFilter, 10, List.mem_singleton.mp hop⟩
  · rw [hdb]
    rfl
  · intro mop hmop
    rcases hman with h | h <;> rw [h] at hmop
    · exact absurd hmop (List.not_mem_nil _)
    · exact List.mem_singleton.mp hmop
  · rcases hman with h | h <;> rw [h] <;> rfl

/-- C7: every point built by per-file indexing carries the indexing tag,
a `total_chunks` equal to the total (pre-filter) chunk count of its
source document, and a zero-based `chunk_index` that addresses its own
(non-whitespace) chunk text; and (scenario) a single 1200-token file
chunked with `max_tokens = 500, overlap = 50` yields exactly 3 points
with indices `0, 1, 2` and `total_chunks = 3`. -/
theorem index_points_metadata (embed : String → List Int) (decode : List Nat → String)
    (tag file_path file_name : String) (tokens : List Nat)
    (h1200 : tokens.length = 1200)
    (hdec : ∀ c, ((decode c).data.all Char.isWhitespace) = false) :
    (∀ (chunks : List String) (p : StoredRecord),
        p ∈ index_file_points embed tag file_path file_name chunks →
        p.tag = tag ∧ p.total_chunks = chunks.length ∧
        ∃ hlt : p.chunk_index < chunks.length, chunks[p.chunk_index] = p.text ∧
          (p.text.data.all Char.isWhitespace) = false) ∧
    (index_file embed decode tag file_path file_name tokens 500 50).map
        (fun p => p.chunk_index) = [0, 1, 2] ∧
    ∀ p ∈ index_file embed decode tag file_path file_name tokens 500 50,
        p.total_chunks = 3 ∧ p.tag = tag := by
  have hgen : ∀ (chunks : List String) (p : StoredRecord),
      p ∈ index_file_points embed tag file_path file_name chunks →
      p.tag = tag ∧ p.total_chunks = chunks.length ∧
      ∃ hlt : p.chunk_index < chunks.length, chunks[p.chunk_index] = p.text ∧
        (p.text.data.all Char.isWhitespace) = false := by
    intro chunks p hp
    unfold index_file_points at hp
    rw [List.mem_filterMap] at hp
    obtain ⟨⟨i, c⟩, hmem, hsome⟩ := hp
    rw [List.mk_mem_enum_iff_getElem?] at hmem
    by_cases hws : (c.data.all Char.isWhitespace) = true
    · rw [if_pos hws] at hsome
      exact absurd hsome (by simp)
    · rw [if_neg hws] at hsome
      have hp' := Option.some.inj hsome
      have hidx : p.chunk_index = i := by rw [← hp']
      have htext : p.text = c := by rw [← hp']
      have hlt : p.chunk_index < chunks.length := by
        rw [hidx]
        exact (List.getElem?_eq_some_iff.mp hmem).1
      refine ⟨by rw [← hp'], by rw [← hp'], hlt, ?_, ?_⟩
      · rw [List.getElem_eq_iff, hidx, htext]
        exact hmem
      · rw [htext]
        exact Bool.eq_false_iff.mpr hws
  have hchunks : chunk_text tokens 500 50 =
      .ok [(tokens.drop 0).take 500, (tokens.drop 450).take 500,
           (tokens.drop 900).take 500] := by
    rw [chunk_text, if_neg (by norm_num), if_neg (by norm_num), h1200]
    rw [show pyRangeUp 0 1200 (500 - 50) = [0, 450, 900] from by decide]
    rfl
  have hpoints : index_file embed decode tag file_path file_name tokens 500 50 =
      [⟨embed (decode ((tokens.drop 0).take 500)), decode ((tokens.drop 0).take 500),
         tag, file_path, file_name, 0, 3⟩,
       ⟨embed (decode ((tokens.drop 450).take 500)), decode ((tokens.drop 450).take 500),
         tag, file_path, file_name, 1, 3⟩,
       ⟨embed (decode ((tokens.drop 900).take 500)), decode ((tokens.drop 900).take 500),
         tag, file_path, file_name, 2, 3⟩] := by
    unfold index_file
    rw [hchunks]
    unfold index_file_points
    simp only [List.map_cons, List.map_nil, List.enum_cons, List.enumFrom,
      List.filterMap_cons, List.filterMap_nil, hdec, Bool.false_eq_true, if_false,
      List.length_cons, List.length_nil]
  refine ⟨hgen, ?_, ?_⟩
  · rw [hpoints]
    rfl
  · intro p hp
    rw [hpoints] at hp
    simp only [List.mem_cons, List.not_mem_nil, or_false] at hp
    rcases hp with h | h | h <;> rw [h] <;> exact ⟨rfl, rfl⟩

/-- C7 witness: 1200 concrete tokens, a decoder that never produces
whitespace-only text. -/
theorem index_points_metadata_witness :
    (∀ (chunks : List String) (p : StoredRecord),
        p ∈ index_file_points (fun _ => ([] : List Int)) "categoryA" "a.txt" "a.txt"
          chunks →
        p.tag = "categoryA" ∧ p.total_chunks = chunks.length ∧
        ∃ hlt : p.chunk_index < chunks.length, chunks[p.chunk_index] = p.text ∧
          (p.text.data.all Char.isWhitespace) = false) ∧
    (index_file (fun _ => ([] : List Int)) (fun _ => "x") "categoryA" "a.txt" "a.txt"
        (List.replicate 1200 0) 500 50).map (fun p => p.chunk_index) = [0, 1, 2] ∧
    ∀ p ∈ index_file (fun _ => ([] : List Int)) (fun _ => "x") "categoryA" "a.txt" "a.txt"
        (List.replicate 1200 0) 500 50,
        p.total_chunks = 3 ∧ p.tag = "categoryA" :=
  index_points_metadata (fun _ => ([] : List Int)) (fun _ => "x") "categoryA" "a.txt"
    "a.txt" (List.replicate 1200 0) (List.length_replicate 1200 0)
    (fun c => by
      show ("x".data.all Char.isWhitespace) = false
      decide)

end KB
